import Mathlib

/-!
Verification development for the NYC motor-vehicle-collision dashboard
(src/dashboard.py and src/helper.py).

The embedding models a pandas DataFrame of collision records as a Lean list of
rows.  Machine floats are modelled as exact rationals, pandas missing values
(NaN) as `Option.none`, and operations that can raise a Python exception
return `Option` results (`none` = the call raises).  The semantics of the
pandas and numpy library calls used by the source are translated at the call
sites, as documented on each definition.
-/

/-- Addition of rationals in a form the kernel evaluates on literals; the
theorem qAdd_eq below proves it equal to ordinary addition on ℚ. -/
def qAdd (a b : ℚ) : ℚ := mkRat (a.num * b.den + b.num * a.den) (a.den * b.den)

/-- Subtraction of rationals in a form the kernel evaluates on literals; the
theorem qSub_eq below proves it equal to ordinary subtraction on ℚ. -/
def qSub (a b : ℚ) : ℚ := mkRat (a.num * b.den - b.num * a.den) (a.den * b.den)

/-- Multiplication of rationals in a form the kernel evaluates on literals;
the theorem qMul_eq below proves it equal to ordinary multiplication on ℚ. -/
def qMul (a b : ℚ) : ℚ := mkRat (a.num * b.num) (a.den * b.den)

/-- Division of a rational by a natural number in a form the kernel evaluates
on literals; the theorem divByNat_eq below proves it equal to ordinary
division on ℚ. -/
def divByNat (a : ℚ) (n : ℕ) : ℚ := mkRat a.num (a.den * n)

theorem qAdd_eq (a b : ℚ) : qAdd a b = a + b := by
  have ha : (a.den : ℚ) ≠ 0 := by exact_mod_cast a.den_nz
  have hb : (b.den : ℚ) ≠ 0 := by exact_mod_cast b.den_nz
  rw [qAdd, Rat.mkRat_eq_div]
  push_cast
  conv_rhs => rw [← Rat.num_div_den a, ← Rat.num_div_den b]
  field_simp

theorem qSub_eq (a b : ℚ) : qSub a b = a - b := by
  have ha : (a.den : ℚ) ≠ 0 := by exact_mod_cast a.den_nz
  have hb : (b.den : ℚ) ≠ 0 := by exact_mod_cast b.den_nz
  rw [qSub, Rat.mkRat_eq_div]
  push_cast
  conv_rhs => rw [← Rat.num_div_den a, ← Rat.num_div_den b]
  field_simp
  ring

theorem qMul_eq (a b : ℚ) : qMul a b = a * b := by
  have ha : (a.den : ℚ) ≠ 0 := by exact_mod_cast a.den_nz
  have hb : (b.den : ℚ) ≠ 0 := by exact_mod_cast b.den_nz
  rw [qMul, Rat.mkRat_eq_div]
  push_cast
  conv_rhs => rw [← Rat.num_div_den a, ← Rat.num_div_den b]
  field_simp

theorem divByNat_eq (a : ℚ) (n : ℕ) : divByNat a n = a / (n : ℚ) := by
  rw [divByNat, Rat.mkRat_eq_div]
  push_cast
  rw [div_mul_eq_div_div, Rat.num_div_den]

/-- A time of day as produced by pd.to_datetime with format %H:%M followed by
.dt.time: an hour in 0..23 and a minute in 0..59. -/
structure TimeOfDay where
  hour : Fin 24
  minute : Fin 60
deriving DecidableEq

/-- A cell of the raw crash_time column.  The remote API serves strings; after
scrub_data has run once, the column holds datetime.time objects instead (the
line df[crash_time] = pd.to_datetime(df[crash_time], format=%H:%M).dt.time
assigns time objects in place).  A string cell is recorded together with the
outcome of parsing it with format %H:%M (none = the string does not parse). -/
inductive TimeCell where
  | str (parsed : Option TimeOfDay)
  | timeObj (t : TimeOfDay)
deriving DecidableEq

/-- Model of pd.to_datetime(column_cell, format=%H:%M) on one cell, with the
default errors=raise: a string cell yields its parse outcome, and a
datetime.time object is not convertible (pandas raises a TypeError), so the
result is none. -/
def to_datetime_time : TimeCell → Option TimeOfDay
  | .str parsed => parsed
  | .timeObj _ => none

/-- A cell of a column that scrub_data coerces to numbers: either missing
(NaN), a value coercible to float (modelled exactly as a rational), or a
non-coercible non-null string. -/
inductive NumCell where
  | null
  | num (q : ℚ)
  | bad
deriving DecidableEq

/-- Model of pd.to_numeric(cell, errors=coerce): missing stays missing, a
coercible value becomes its number, a non-coercible string becomes NaN. -/
def to_numeric_coerce : NumCell → Option ℚ
  | .null => none
  | .num q => some q
  | .bad => none

/-- Model of Series.astype(float) on one cell: NaN stays NaN, a coercible
value becomes its number, and a non-coercible string raises a ValueError
(result none). -/
def astype_float : NumCell → Option (Option ℚ)
  | .null => some none
  | .num q => some (some q)
  | .bad => none

/-- True exactly for a missing value; pandas dropna removes rows on this
test.  A non-coercible string is not null. -/
def is_null_cell : NumCell → Bool
  | .null => true
  | _ => false

/-- One raw row as fetched by load_data.  crash_date records the outcome of
pd.to_datetime on the raw date string (none = the string does not parse; a
successfully parsed and re-formatted %Y-%m-%d string re-parses to the same
day, so a single abstract day number suffices).  The remote API already
serves lower-case, underscore-separated field names, so the rename steps of
scrub_data are the identity on this schema and are not modelled separately. -/
structure RawRow where
  crash_date : Option ℕ
  crash_time : TimeCell
  latitude : NumCell
  longitude : NumCell
  number_of_persons_injured : NumCell
  number_of_pedestrians_injured : NumCell
  number_of_cyclist_injured : NumCell
  number_of_motorist_injured : NumCell
  number_of_persons_killed : NumCell
  number_of_pedestrians_killed : NumCell
  number_of_cyclist_killed : NumCell
  number_of_motorist_killed : NumCell
  on_street_name : Option String
deriving DecidableEq

/-- One cleaned record, a row of the frame returned by scrub_data.  date_time
is the combined column created on line 44 of src/dashboard.py and renamed to
date/time on line 51.  latitude and longitude stay optional because the float
columns can in principle hold NaN; the casualty counts are float columns in
which NaN marks a missing or non-coercible raw value. -/
structure Record where
  crash_date : ℕ
  crash_time : TimeOfDay
  date_time : ℕ × TimeOfDay
  latitude : Option ℚ
  longitude : Option ℚ
  number_of_persons_injured : Option ℚ
  number_of_pedestrians_injured : Option ℚ
  number_of_cyclist_injured : Option ℚ
  number_of_motorist_injured : Option ℚ
  number_of_persons_killed : Option ℚ
  number_of_pedestrians_killed : Option ℚ
  number_of_cyclist_killed : Option ℚ
  number_of_motorist_killed : Option ℚ
  on_street_name : Option String
deriving DecidableEq

/-- Hour of day of the date/time column of a record (the .dt.hour accessor). -/
def hourVal (r : Record) : ℕ := r.date_time.2.hour.val

/-- Minute of hour of the date/time column of a record (the .dt.minute
accessor). -/
def minuteVal (r : Record) : ℕ := r.date_time.2.minute.val

/-- Column-wise map with raise-on-error semantics: pandas operations run with
errors=raise fail for the whole frame as soon as any cell fails. -/
def mapO (f : α → Option β) : List α → Option (List β)
  | [] => some []
  | a :: l =>
    match f a with
    | none => none
    | some b =>
      match mapO f l with
      | none => none
      | some bs => some (b :: bs)

/-- Lines 42-44 of src/dashboard.py applied to one row: parse the date string
and the time string (both with errors=raise) and keep the row together with
the parsed pieces; the combination into one timestamp on line 44 always
succeeds once both parses did. -/
def parse_row (r : RawRow) : Option (RawRow × ℕ × TimeOfDay) :=
  match r.crash_date, to_datetime_time r.crash_time with
  | some d, some t => some (r, d, t)
  | _, _ => none

/-- Line 47 of src/dashboard.py: df.dropna(subset=[latitude, longitude]) keeps
a row iff neither coordinate cell is missing. -/
def keep_coords (x : RawRow × ℕ × TimeOfDay) : Bool :=
  !(is_null_cell x.1.latitude) && !(is_null_cell x.1.longitude)

/-- Lines 54-58 of src/dashboard.py applied to one surviving row: the eight
casualty columns go through pd.to_numeric(errors=coerce) and the two
coordinate columns through astype(float), which raises on a non-coercible
string. -/
def build_record (x : RawRow × ℕ × TimeOfDay) : Option Record :=
  match astype_float x.1.latitude, astype_float x.1.longitude with
  | some la, some lo =>
      some
        { crash_date := x.2.1
          crash_time := x.2.2
          date_time := (x.2.1, x.2.2)
          latitude := la
          longitude := lo
          number_of_persons_injured := to_numeric_coerce x.1.number_of_persons_injured
          number_of_pedestrians_injured := to_numeric_coerce x.1.number_of_pedestrians_injured
          number_of_cyclist_injured := to_numeric_coerce x.1.number_of_cyclist_injured
          number_of_motorist_injured := to_numeric_coerce x.1.number_of_motorist_injured
          number_of_persons_killed := to_numeric_coerce x.1.number_of_persons_killed
          number_of_pedestrians_killed := to_numeric_coerce x.1.number_of_pedestrians_killed
          number_of_cyclist_killed := to_numeric_coerce x.1.number_of_cyclist_killed
          number_of_motorist_killed := to_numeric_coerce x.1.number_of_motorist_killed
          on_street_name := x.1.on_street_name }
  | _, _ => none

/-- Line 61 of src/dashboard.py: the literal 40.4. -/
def nyc_latitude_min : ℚ := mkRat 404 10
/-- Line 62 of src/dashboard.py: the literal 41.0. -/
def nyc_latitude_max : ℚ := mkRat 410 10
/-- Line 63 of src/dashboard.py: the literal -74.3. -/
def nyc_longitude_min : ℚ := mkRat (-743) 10
/-- Line 64 of src/dashboard.py: the literal -73.7. -/
def nyc_longitude_max : ℚ := mkRat (-737) 10

/-- Pandas comparison cell >= bound: a comparison against NaN is False. -/
def naGe (c : Option ℚ) (b : ℚ) : Bool :=
  match c with
  | some v => decide (b ≤ v)
  | none => false

/-- Pandas comparison cell <= bound: a comparison against NaN is False. -/
def naLe (c : Option ℚ) (b : ℚ) : Bool :=
  match c with
  | some v => decide (v ≤ b)
  | none => false

/-- Lines 65-66 of src/dashboard.py: the NYC bounding-box mask for one row. -/
def in_nyc_bounds (r : Record) : Bool :=
  naGe r.latitude nyc_latitude_min && naLe r.latitude nyc_latitude_max &&
    naGe r.longitude nyc_longitude_min && naLe r.longitude nyc_longitude_max

/-- scrub_data (src/dashboard.py lines 31-67): parse the date and time
columns (errors=raise, so the whole call fails if any row fails), drop rows
with missing coordinates, coerce the casualty columns (errors=coerce) and the
coordinate columns (astype, raises on non-coercible strings), and keep only
rows inside the NYC bounding box.  Result none models the Python call raising
an exception. -/
def scrub_data (rows : List RawRow) : Option (List Record) :=
  match mapO parse_row rows with
  | none => none
  | some parsed =>
    match mapO build_record (parsed.filter keep_coords) with
    | none => none
    | some recs => some (recs.filter in_nyc_bounds)

example :
    scrub_data
        [{ crash_date := some 100
           crash_time := .str (some ⟨17, 30⟩)
           latitude := .num (mkRat 407 10)
           longitude := .num (-74)
           number_of_persons_injured := .num 1
           number_of_pedestrians_injured := .num 0
           number_of_cyclist_injured := .num 0
           number_of_motorist_injured := .num 0
           number_of_persons_killed := .num 0
           number_of_pedestrians_killed := .num 0
           number_of_cyclist_killed := .num 0
           number_of_motorist_killed := .num 0
           on_street_name := some "BROADWAY" }] =
      some
        [{ crash_date := 100
           crash_time := ⟨17, 30⟩
           date_time := (100, ⟨17, 30⟩)
           latitude := some (mkRat 407 10)
           longitude := some (-74)
           number_of_persons_injured := some 1
           number_of_pedestrians_injured := some 0
           number_of_cyclist_injured := some 0
           number_of_motorist_injured := some 0
           number_of_persons_killed := some 0
           number_of_pedestrians_killed := some 0
           number_of_cyclist_killed := some 0
           number_of_motorist_killed := some 0
           on_street_name := some "BROADWAY" }] := by
  decide

/-- The eight metric choices of the select box in map_of_the_incident
(src/dashboard.py lines 82-83). -/
inductive MetricKind where
  | totalInjured
  | pedestriansInjured
  | cyclistsInjured
  | motoristsInjured
  | totalKilled
  | pedestriansKilled
  | cyclistsKilled
  | motoristsKilled
deriving DecidableEq

/-- The casualty-count column queried for each metric choice, following the
branches on lines 87-102 of src/dashboard.py. -/
def metricField : MetricKind → Record → Option ℚ
  | .totalInjured, r => r.number_of_persons_injured
  | .pedestriansInjured, r => r.number_of_pedestrians_injured
  | .cyclistsInjured, r => r.number_of_cyclist_injured
  | .motoristsInjured, r => r.number_of_motorist_injured
  | .totalKilled, r => r.number_of_persons_killed
  | .pedestriansKilled, r => r.number_of_pedestrians_killed
  | .cyclistsKilled, r => r.number_of_cyclist_killed
  | .motoristsKilled, r => r.number_of_motorist_killed

/-- The query_data computation of map_of_the_incident (src/dashboard.py lines
86-102): df.query(field >= num_people) followed by the projection to
latitude and longitude and dropna(how=any).  A query comparison against NaN
is False, so rows with a missing count never pass. -/
def map_of_the_incident (rs : List Record) (m : MetricKind) (num_people : ℕ) :
    List (Option ℚ × Option ℚ) :=
  (((rs.filter (fun r => naGe (metricField m r) (num_people : ℚ))).map
      (fun r => (r.latitude, r.longitude))).filter
    (fun p => p.1.isSome && p.2.isSome))

/-- Line 131 of src/dashboard.py: df[df[date/time].dt.hour == hour], the row
selection used by map_of_the_incident_freq_hist for the density map. -/
def map_of_the_incident_freq_hist (rs : List Record) (hour : ℕ) : List Record :=
  rs.filter (fun r => hourVal r == hour)

/-- Lines 181-183 of src/dashboard.py: the row selection of
gen_chart_hist_by_min, keeping rows with hour <= dt.hour < hour + 1. -/
def hour_window (rs : List Record) (hour : ℕ) : List Record :=
  rs.filter (fun r => decide (hour ≤ hourVal r) && decide (hourVal r < hour + 1))

/-- np.histogram(values, bins=60, range=(0, 60))[0] on integer minute values
(line 184 of src/dashboard.py): sixty equal-width unit buckets over [0, 60],
where bucket m counts values in [m, m+1) and the final bucket is closed on
the right. -/
def np_histogram_60 (xs : List ℕ) : List ℕ :=
  (List.range 60).map
    (fun m => xs.countP (fun x => (decide (m ≤ x) && decide (x < m + 1)) || (m == 59 && x == 60)))

/-- gen_chart_hist_by_min (src/dashboard.py lines 166-187): filter to the
hour window and histogram the minute-of-hour values into 60 buckets. -/
def gen_chart_hist_by_min (rs : List Record) (hour : ℕ) : List ℕ :=
  np_histogram_60 ((hour_window rs hour).map minuteVal)

/-- The affected-class choices of create_table_incident_by_street
(src/dashboard.py line 202). -/
inductive StreetMetric where
  | pedestrians
  | cyclists
  | motorists
deriving DecidableEq

/-- The injury column queried for each affected class, following lines
203-208 of src/dashboard.py. -/
def classField : StreetMetric → Record → Option ℚ
  | .pedestrians, r => r.number_of_pedestrians_injured
  | .cyclists, r => r.number_of_cyclist_injured
  | .motorists, r => r.number_of_motorist_injured

/-- Insert an element into a list that is already sorted ascending by key,
before the first element of key at least as large; inserting the earlier
element in front of equal keys makes the overall sort stable. -/
def insertAsc (key : α → ℚ) (x : α) : List α → List α
  | [] => [x]
  | y :: ys => if key x ≤ key y then x :: y :: ys else y :: insertAsc key x ys

/-- Stable ascending sort by key.  This models numpy argsort with the default
kind=quicksort on the array sizes at hand: numpy runs its insertion sort on
ranges below the small-sort cutoff, and that insertion sort keeps equal
elements in their original order. -/
def sortAsc (key : α → ℚ) : List α → List α
  | [] => []
  | x :: xs => insertAsc key x (sortAsc key xs)

/-- create_table_incident_by_street (src/dashboard.py lines 203-208):
df.query(field >= 1), projection to street name and count, sort_values by
the count column with ascending=False, dropna(how=any), and [:5].  Pandas
implements a descending sort_values as an ascending argsort whose index
order is then reversed, so rows with equal counts end up in reverse arrival
order.  The count key of every sorted row is present because the query step
already removed missing counts, so the getD default is never read. -/
def create_table_incident_by_street (rs : List Record) (c : StreetMetric) :
    List (Option String × Option ℚ) :=
  let q := rs.filter (fun r => naGe (classField c r) 1)
  let proj := q.map (fun r => (r.on_street_name, classField c r))
  let sorted := (sortAsc (fun p => p.2.getD 0) proj).reverse
  (sorted.filter (fun p => p.1.isSome && p.2.isSome)).take 5

/-- Model of the in-place effect of lines 42-44 of src/dashboard.py on one
row of the caller-visible frame: the crash_date column is re-assigned its
normalized %Y-%m-%d string (which re-parses to the same day) and the
crash_time column is re-assigned datetime.time objects. -/
def mutate_parse (r : RawRow) : Option RawRow :=
  match r.crash_date, to_datetime_time r.crash_time with
  | some d, some t =>
      some { r with crash_date := some d, crash_time := TimeCell.timeObj t }
  | _, _ => none

/-- A float cell written back into a column after coercion. -/
def cell_of_float : Option ℚ → NumCell
  | some q => NumCell.num q
  | none => NumCell.null

/-- Model of the in-place effect of lines 54-58 of src/dashboard.py on one
surviving row: the casualty columns now hold the coerced numbers and the
coordinate columns hold floats. -/
def mutate_convert (r : RawRow) : Option RawRow :=
  match astype_float r.latitude, astype_float r.longitude with
  | some la, some lo =>
      some { r with
        latitude := cell_of_float la
        longitude := cell_of_float lo
        number_of_persons_injured := cell_of_float (to_numeric_coerce r.number_of_persons_injured)
        number_of_pedestrians_injured := cell_of_float (to_numeric_coerce r.number_of_pedestrians_injured)
        number_of_cyclist_injured := cell_of_float (to_numeric_coerce r.number_of_cyclist_injured)
        number_of_motorist_injured := cell_of_float (to_numeric_coerce r.number_of_motorist_injured)
        number_of_persons_killed := cell_of_float (to_numeric_coerce r.number_of_persons_killed)
        number_of_pedestrians_killed := cell_of_float (to_numeric_coerce r.number_of_pedestrians_killed)
        number_of_cyclist_killed := cell_of_float (to_numeric_coerce r.number_of_cyclist_killed)
        number_of_motorist_killed := cell_of_float (to_numeric_coerce r.number_of_motorist_killed) }
  | _, _ => none

/-- The state of the CALLER-visible frame after a successful run of
scrub_data.  Lines 42-44, 47 (dropna with inplace=True), 49-51 and 54-58 of
src/dashboard.py mutate the frame object passed in; only line 65 rebinds the
local name, so the bounding-box filter is not visible to the caller.  On a
run that raises, the partially mutated state is not modelled (result none). -/
def scrub_mutate (rows : List RawRow) : Option (List RawRow) :=
  match mapO mutate_parse rows with
  | none => none
  | some parsed =>
      mapO mutate_convert
        (parsed.filter (fun r => !(is_null_cell r.latitude) && !(is_null_cell r.longitude)))

/-- A column of the cleaned frame as seen by the profiling utilities in
src/helper.py, tagged with its pandas dtype: obj for object columns (strings
such as crash_date, crash_time and on_street_name), num for the float64
columns, and dt for the datetime64 column date/time.  A datetime64 value is
represented by its (totally ordered) offset in minutes; quantiles and
comparisons on timestamps follow the same arithmetic. -/
inductive PCol where
  | obj (cells : List (Option String))
  | num (cells : List (Option ℚ))
  | dt (cells : List ℚ)
deriving DecidableEq

/-- A pandas DataFrame for the profiling utilities: named, dtype-tagged
columns. -/
abbrev Frame := List (String × PCol)

/-- Number of cells of a column. -/
def col_len : PCol → ℕ
  | .obj cells => cells.length
  | .num cells => cells.length
  | .dt cells => cells.length

/-- df.shape[0]: the row count of the frame. -/
def df_shape0 : Frame → ℕ
  | [] => 0
  | c :: _ => col_len c.2

/-- df.isnull().sum() for one column: number of missing cells.  The date/time
column of a cleaned frame is built from successfully parsed timestamps and
holds no NaT. -/
def null_count : PCol → ℕ
  | .obj cells => cells.countP (fun c => c.isNone)
  | .num cells => cells.countP (fun c => c.isNone)
  | .dt _ => 0

/-- Round to the nearest integer, ties to the even integer: the rounding used
by np.around, which implements Python round() on pandas Series. -/
def round_half_even (q : ℚ) : ℤ :=
  let n := ⌊q⌋
  let fr := qSub q (n : ℚ)
  if fr < mkRat 1 2 then n
  else if mkRat 1 2 < fr then n + 1
  else if n % 2 = 0 then n else n + 1

/-- round(x, 2): round to two decimal places, ties to even (the float
arithmetic of np.around is idealized to exact rational arithmetic). -/
def round2 (q : ℚ) : ℚ := mkRat (round_half_even (qMul q 100)) 100

/-- Python str() of a float that is an exact multiple of 1/100, as produced
by round(x, 2): the shortest decimal form, with at least one digit after the
point and no trailing zero in the second place. -/
def py_float_str (q : ℚ) : String :=
  let k : ℤ := ⌊qMul q 100⌋
  let sign := if k < 0 then "-" else ""
  let a := k.natAbs
  let ip := a / 100
  let fr := a % 100
  sign ++ toString ip ++
    (if fr = 0 then ".0"
     else if fr % 10 = 0 then "." ++ toString (fr / 10)
     else if fr < 10 then ".0" ++ toString fr
     else "." ++ toString fr)

/-- df_isnull (src/helper.py lines 65-79): per column, the number of missing
values and the percentage of the row count, rounded to two decimal places,
rendered with str() and a trailing percent sign. -/
def df_isnull (f : Frame) : List (String × ℕ × String) :=
  f.map
    (fun c =>
      (c.1, null_count c.2,
        py_float_str (round2 (qMul (divByNat (null_count c.2 : ℚ) (df_shape0 f)) 100)) ++ "%"))

/-- True for object-dtype columns; select_dtypes(exclude=object) removes
exactly these. -/
def is_object_col : PCol → Bool
  | .obj _ => true
  | _ => false

/-- True for the float64 columns. -/
def is_num_col : PCol → Bool
  | .num _ => true
  | _ => false

/-- The names of the numeric (float64) columns of a frame. -/
def numeric_fields (f : Frame) : List String :=
  (f.filter (fun c => is_num_col c.2)).map (fun c => c.1)

/-- The values a pandas quantile works on: NaN cells are skipped; object
columns have no quantile. -/
def col_values : PCol → List ℚ
  | .obj _ => []
  | .num cells => cells.filterMap id
  | .dt cells => cells

/-- Linear interpolation at quantile p of a nonempty ascending-sorted list,
the default interpolation of Series.quantile: with h = p * (n - 1), the
result is x_i + (h - i) * (x_j - x_i) for i = floor h and j = i + 1. -/
def quantileSorted (p : ℚ) (xs : List ℚ) : ℚ :=
  let n := xs.length
  let h := qMul p (qSub (n : ℚ) 1)
  let i := (⌊h⌋).toNat
  let g := qSub h ((⌊h⌋ : ℤ) : ℚ)
  let xi := xs.getD i 0
  let xj := xs.getD (i + 1) xi
  qAdd xi (qMul g (qSub xj xi))

/-- df.quantile(p) for one column: skip missing values, sort, interpolate;
none when there is no value (the pandas result is then NaN and every
comparison against it is False). -/
def quantile (p : ℚ) (col : PCol) : Option ℚ :=
  let xs := sortAsc (fun v => v) (col_values col)
  if xs.isEmpty then none else some (quantileSorted p xs)

/-- ((df < lo) | (df > hi)).sum() for one column: cells strictly outside
[lo, hi]; a comparison against a NaN cell is False, so missing cells are
never counted. -/
def cell_outlier_count (col : PCol) (lo hi : ℚ) : ℕ :=
  match col with
  | .obj _ => 0
  | .num cells =>
      cells.countP
        (fun c =>
          match c with
          | some v => decide (v < lo) || decide (hi < v)
          | none => false)
  | .dt cells => cells.countP (fun v => decide (v < lo) || decide (hi < v))

/-- The IQR outlier count of one column: Q1 and Q3 are the 25th and 75th
percentiles, IQR = Q3 - Q1, and a value is an outlier iff it lies strictly
outside [Q1 - 1.5 IQR, Q3 + 1.5 IQR]. -/
def outlier_count (col : PCol) : ℕ :=
  match quantile (mkRat 1 4) col, quantile (mkRat 3 4) col with
  | some q1, some q3 =>
      let iqr := qSub q3 q1
      cell_outlier_count col (qSub q1 (qMul (mkRat 3 2) iqr)) (qAdd q3 (qMul (mkRat 3 2) iqr))
  | _, _ => 0

/-- number_of_outliers (src/helper.py lines 82-99): df.select_dtypes with
exclude=object keeps the float64 AND the datetime64 columns, then each kept
column gets its IQR outlier count (DataFrame.quantile computes datetime
quantiles as well, and the subsequent Timestamp and Timedelta arithmetic
follows the same ordered-field rules as the numeric columns). -/
def number_of_outliers (f : Frame) : List (String × ℕ) :=
  (f.filter (fun c => !(is_object_col c.2))).map (fun c => (c.1, outlier_count c.2))

/-- Minutes-since-epoch encoding of the date/time value of a record, the
order-preserving value of the datetime64 column. -/
def dt_value (r : Record) : ℚ :=
  ((r.date_time.1 * 1440 + r.date_time.2.hour.val * 60 + r.date_time.2.minute.val : ℕ) : ℚ)

/-- String rendering of a time of day, the content of the object-dtype
crash_time column after cleaning. -/
def time_str (t : TimeOfDay) : String :=
  toString t.hour.val ++ ":" ++ toString t.minute.val ++ ":00"

/-- The cleaned frame seen by the profiling utilities, column by column (the
remaining raw columns of the remote schema are all object dtype and behave
like the object columns shown here).  The combined date/time column is the
last column, as created on line 44 of src/dashboard.py. -/
def recordFrame (rs : List Record) : Frame :=
  [("crash_date", PCol.obj (rs.map (fun r => some (toString r.crash_date)))),
   ("crash_time", PCol.obj (rs.map (fun r => some (time_str r.crash_time)))),
   ("latitude", PCol.num (rs.map (fun r => r.latitude))),
   ("longitude", PCol.num (rs.map (fun r => r.longitude))),
   ("on_street_name", PCol.obj (rs.map (fun r => r.on_street_name))),
   ("number_of_persons_injured", PCol.num (rs.map (fun r => r.number_of_persons_injured))),
   ("number_of_pedestrians_injured", PCol.num (rs.map (fun r => r.number_of_pedestrians_injured))),
   ("number_of_cyclist_injured", PCol.num (rs.map (fun r => r.number_of_cyclist_injured))),
   ("number_of_motorist_injured", PCol.num (rs.map (fun r => r.number_of_motorist_injured))),
   ("number_of_persons_killed", PCol.num (rs.map (fun r => r.number_of_persons_killed))),
   ("number_of_pedestrians_killed", PCol.num (rs.map (fun r => r.number_of_pedestrians_killed))),
   ("number_of_cyclist_killed", PCol.num (rs.map (fun r => r.number_of_cyclist_killed))),
   ("number_of_motorist_killed", PCol.num (rs.map (fun r => r.number_of_motorist_killed))),
   ("date/time", PCol.dt (rs.map dt_value))]

example : quantile (mkRat 1 4) (PCol.num [some 1, some 2, some 3, some 4, some 100]) = some 2 := by
  decide

example : quantile (mkRat 3 4) (PCol.num [some 1, some 2, some 3, some 4, some 100]) = some 4 := by
  decide

example : outlier_count (PCol.num [some 1, some 2, some 3, some 4, some 100]) = 1 := by
  decide

example : py_float_str (round2 (qMul (divByNat (3 : ℚ) 12) 100)) = "25.0" := by decide

theorem mapO_eq_none_of_mem {f : α → Option β} {l : List α} {a : α}
    (ha : a ∈ l) (hf : f a = none) : mapO f l = none := by
  induction l with
  | nil => cases ha
  | cons x xs ih =>
    rcases List.mem_cons.1 ha with rfl | hmem
    · simp [mapO, hf]
    · cases hx : f x with
      | none => simp [mapO, hx]
      | some b => simp [mapO, hx, ih hmem]

theorem mapO_mem_of_mem {f : α → Option β} {l : List α} {l' : List β}
    (h : mapO f l = some l') {a : α} (ha : a ∈ l) : ∃ b ∈ l', f a = some b := by
  induction l generalizing l' with
  | nil => cases ha
  | cons x xs ih =>
    cases hx : f x with
    | none => simp [mapO, hx] at h
    | some b =>
      cases hxs : mapO f xs with
      | none => simp [mapO, hx, hxs] at h
      | some bs =>
        simp only [mapO, hx, hxs, Option.some.injEq] at h
        subst h
        rcases List.mem_cons.1 ha with rfl | hmem
        · exact ⟨b, List.mem_cons_self _ _, hx⟩
        · obtain ⟨c, hc, hfc⟩ := ih hxs hmem
          exact ⟨c, List.mem_cons_of_mem _ hc, hfc⟩

theorem mapO_forall_mem {f : α → Option β} {l : List α} {l' : List β}
    (h : mapO f l = some l') : ∀ b ∈ l', ∃ a ∈ l, f a = some b := by
  induction l generalizing l' with
  | nil =>
    simp only [mapO, Option.some.injEq] at h
    subst h
    intro b hb
    cases hb
  | cons x xs ih =>
    cases hx : f x with
    | none => simp [mapO, hx] at h
    | some b =>
      cases hxs : mapO f xs with
      | none => simp [mapO, hx, hxs] at h
      | some bs =>
        simp only [mapO, hx, hxs, Option.some.injEq] at h
        subst h
        intro c hc
        rcases List.mem_cons.1 hc with rfl | hmem
        · exact ⟨x, List.mem_cons_self _ _, hx⟩
        · obtain ⟨a, haxs, hfa⟩ := ih hxs c hmem
          exact ⟨a, List.mem_cons_of_mem _ haxs, hfa⟩

theorem sum_map_add (l : List α) (f g : α → ℕ) :
    (l.map (fun x => f x + g x)).sum = (l.map f).sum + (l.map g).sum := by
  induction l with
  | nil => simp
  | cons x xs ih => simp [ih]; omega

theorem sum_indicator_zero (a : ℕ) (l : List ℕ) (h : a ∉ l) :
    (l.map (fun m => if a == m then 1 else 0)).sum = 0 := by
  induction l with
  | nil => simp
  | cons x xs ih =>
    have hax : ¬ a = x := fun e => h (e ▸ List.mem_cons_self x xs)
    simp only [List.map_cons, List.sum_cons]
    rw [if_neg (by simp [hax]), ih (fun hm => h (List.mem_cons_of_mem _ hm))]

theorem sum_indicator_range {n a : ℕ} (ha : a < n) :
    ((List.range n).map (fun m => if a == m then 1 else 0)).sum = 1 := by
  induction n with
  | zero => omega
  | succ n ih =>
    rw [List.range_succ, List.map_append, List.sum_append]
    by_cases h : a < n
    · have hne : ¬ a = n := by omega
      rw [ih h]
      simp [hne]
    · have he : a = n := by omega
      subst he
      rw [sum_indicator_zero a (List.range a) (by simp)]
      simp

theorem sum_range_countP (n : ℕ) (xs : List ℕ) (hx : ∀ x ∈ xs, x < n) :
    ((List.range n).map (fun m => xs.countP (fun x => x == m))).sum = xs.length := by
  induction xs with
  | nil => simp
  | cons a l ih =>
    have ha : a < n := hx a (List.mem_cons_self a l)
    simp only [List.countP_cons]
    rw [sum_map_add, ih (fun x hx' => hx x (List.mem_cons_of_mem _ hx')),
      sum_indicator_range ha]
    simp

theorem np_histogram_60_eq (xs : List ℕ) (hx : ∀ x ∈ xs, x < 60) :
    np_histogram_60 xs = (List.range 60).map (fun m => xs.countP (fun x => x == m)) := by
  unfold np_histogram_60
  apply List.map_congr_left
  intro m hm
  have hm60 : m < 60 := List.mem_range.1 hm
  apply List.countP_congr
  intro x hxl
  have h1 : x < 60 := hx x hxl
  simp only [Bool.or_eq_true, Bool.and_eq_true, decide_eq_true_eq, beq_iff_eq]
  omega

theorem getD_map_range (n : ℕ) (f : ℕ → ℕ) (m : ℕ) (hm : m < n) :
    ((List.range n).map f).getD m 0 = f m := by
  rw [List.getD_eq_getElem?_getD, List.getElem?_map, List.getElem?_range hm]
  rfl

/-- C10: the records selected for the density map (dt.hour == hour, line 131
of src/dashboard.py) are exactly the records selected for the minute
histogram (hour <= dt.hour < hour + 1, lines 181-183); the two views operate
on the same rows for every hour, in particular for every hour in 0..23. -/
theorem c10_hour_filters_agree (rs : List Record) (hour : ℕ) :
    map_of_the_incident_freq_hist rs hour = hour_window rs hour := by
  unfold map_of_the_incident_freq_hist hour_window
  apply List.filter_congr
  intro r _
  rw [Bool.eq_iff_iff]
  simp only [Bool.and_eq_true, decide_eq_true_eq, beq_iff_eq]
  omega

/-- C4: for every record set and every hour, the minute histogram has exactly
60 buckets, its total equals the number of records whose hour of day lies in
[hour, hour + 1), and bucket m counts exactly the records in that window
whose minute of hour equals m (empty buckets are zero by construction of the
counts). -/
theorem c4_minute_histogram (rs : List Record) (hour : ℕ) :
    (gen_chart_hist_by_min rs hour).length = 60 ∧
    (gen_chart_hist_by_min rs hour).sum
      = rs.countP (fun r => decide (hour ≤ hourVal r ∧ hourVal r < hour + 1)) ∧
    (∀ m : Fin 60,
      (gen_chart_hist_by_min rs hour).getD m.val 0
        = rs.countP
            (fun r => decide ((hour ≤ hourVal r ∧ hourVal r < hour + 1) ∧ minuteVal r = m.val))) := by
  have hmin : ∀ x ∈ (hour_window rs hour).map minuteVal, x < 60 := by
    intro x hx
    obtain ⟨r, _, rfl⟩ := List.mem_map.1 hx
    exact r.date_time.2.minute.isLt
  refine ⟨?_, ?_, ?_⟩
  · simp [gen_chart_hist_by_min, np_histogram_60]
  · rw [gen_chart_hist_by_min, np_histogram_60_eq _ hmin, sum_range_countP 60 _ hmin,
      List.length_map]
    rw [hour_window, ← List.countP_eq_length_filter]
    apply List.countP_congr
    intro r _
    simp only [Bool.and_eq_true, decide_eq_true_eq]
  · intro m
    rw [gen_chart_hist_by_min, np_histogram_60_eq _ hmin,
      getD_map_range 60 _ m.val m.isLt, List.countP_map]
    rw [hour_window, List.countP_filter]
    apply List.countP_congr
    intro r _
    simp only [Function.comp, Bool.and_eq_true, decide_eq_true_eq, beq_iff_eq]
    tauto

/-- A raw row that survives every cleaning step: valid date and time, numeric
coordinates inside the NYC box, numeric casualty counts, a street name. -/
def baseRaw : RawRow :=
  { crash_date := some 100
    crash_time := .str (some ⟨17, 30⟩)
    latitude := .num (mkRat 407 10)
    longitude := .num (-74)
    number_of_persons_injured := .num 1
    number_of_pedestrians_injured := .num 0
    number_of_cyclist_injured := .num 0
    number_of_motorist_injured := .num 0
    number_of_persons_killed := .num 0
    number_of_pedestrians_killed := .num 0
    number_of_cyclist_killed := .num 0
    number_of_motorist_killed := .num 0
    on_street_name := some "BROADWAY" }

/-- The cleaned record scrub_data produces from baseRaw. -/
def baseRec : Record :=
  { crash_date := 100
    crash_time := ⟨17, 30⟩
    date_time := (100, ⟨17, 30⟩)
    latitude := some (mkRat 407 10)
    longitude := some (-74)
    number_of_persons_injured := some 1
    number_of_pedestrians_injured := some 0
    number_of_cyclist_injured := some 0
    number_of_motorist_injured := some 0
    number_of_persons_killed := some 0
    number_of_pedestrians_killed := some 0
    number_of_cyclist_killed := some 0
    number_of_motorist_killed := some 0
    on_street_name := some "BROADWAY" }

/-- A raw input holding one fully valid row and one row whose time string
does not parse. -/
def c3rows : List RawRow := [baseRaw, { baseRaw with crash_time := .str none }]

/-- C3 counterexample: on an input with one valid row and one row whose time
string fails to parse, clean raises (pd.to_datetime runs with errors=raise),
instead of dropping the malformed row and returning the valid one. -/
theorem c3_counterexample : scrub_data c3rows = none := by decide

/-- C3 amended: if any row of the input has an unparseable date or time
string, scrub_data raises for the whole input; malformed rows are not
dropped individually.  (When every row parses, the date and time steps do
not raise; failures can then come only from the coordinate coercion.) -/
theorem c3_parse_failure_raises (rows : List RawRow) (r : RawRow) (hmem : r ∈ rows)
    (hbad : r.crash_date = none ∨ to_datetime_time r.crash_time = none) :
    scrub_data rows = none := by
  have hpr : parse_row r = none := by
    unfold parse_row
    rcases hd : r.crash_date with _ | d <;>
      rcases ht : to_datetime_time r.crash_time with _ | t <;>
        simp_all
  unfold scrub_data
  rw [mapO_eq_none_of_mem hmem hpr]

/-- C3 amended witness at the concrete input c3rows. -/
theorem c3_witness :
    ((({ baseRaw with crash_time := .str none } : RawRow) ∈ c3rows) ∧
      (({ baseRaw with crash_time := .str none } : RawRow).crash_date = none ∨
        to_datetime_time ({ baseRaw with crash_time := .str none } : RawRow).crash_time = none)) ∧
      scrub_data c3rows = none :=
  ⟨⟨by decide, Or.inr (by decide)⟩,
    c3_parse_failure_raises c3rows { baseRaw with crash_time := .str none } (by decide)
      (Or.inr (by decide))⟩

theorem parse_row_fst {r : RawRow} {y : RawRow × ℕ × TimeOfDay}
    (h : parse_row r = some y) : y.1 = r := by
  unfold parse_row at h
  rcases hd : r.crash_date with _ | d <;>
    rcases ht : to_datetime_time r.crash_time with _ | t <;>
      simp_all
  rw [← h]

/-- A raw row whose latitude is a non-coercible string. -/
def c6badRow : RawRow := { baseRaw with latitude := .bad }

/-- A raw input holding one fully valid row and one row whose latitude cannot
be coerced to float. -/
def c6rows : List RawRow := [baseRaw, c6badRow]

/-- C6 counterexample: on an input with one valid row and one row whose
latitude is a non-coercible string, clean raises (astype(float) raises a
ValueError); the bad row is not silently excluded and the valid row is not
returned. -/
theorem c6_counterexample : scrub_data c6rows = none := by decide

/-- C6 amended: a row both of whose coordinate cells are non-null survives
the dropna step, and if its latitude or its longitude is a non-coercible
string, the astype(float) coercion then raises for the whole input: coercion
failure is a raised error, not an out-of-bounds exclusion.  (A non-coercible
coordinate paired with a missing one never reaches the coercion: dropna at
line 47 of src/dashboard.py removes that row first and clean succeeds.) -/
theorem c6_bad_coordinate_raises (rows : List RawRow) (r : RawRow) (hmem : r ∈ rows)
    (hbad : r.latitude = NumCell.bad ∨ r.longitude = NumCell.bad)
    (hlat_nn : is_null_cell r.latitude = false)
    (hlon_nn : is_null_cell r.longitude = false) :
    scrub_data rows = none := by
  cases h1 : mapO parse_row rows with
  | none => unfold scrub_data; rw [h1]
  | some parsed =>
    cases hpr : parse_row r with
    | none => exact absurd h1 (by rw [mapO_eq_none_of_mem hmem hpr]; simp)
    | some y =>
      obtain ⟨b, hb, hrb⟩ := mapO_mem_of_mem h1 hmem
      have hy1 : b.1 = r := parse_row_fst hrb
      have hkeep : keep_coords b = true := by
        unfold keep_coords
        rw [hy1, hlat_nn, hlon_nn]
        rfl
      have hmemf : b ∈ parsed.filter keep_coords := List.mem_filter.2 ⟨hb, hkeep⟩
      have hbuild : build_record b = none := by
        unfold build_record
        rw [hy1]
        rcases hbad with hc | hc
        · rw [hc]
          rfl
        · rw [hc]
          rcases hla : r.latitude with _ | q | _
          · rw [hla] at hlat_nn
            simp [is_null_cell] at hlat_nn
          · rfl
          · rfl
      have h2 : mapO build_record (parsed.filter keep_coords) = none :=
        mapO_eq_none_of_mem hmemf hbuild
      unfold scrub_data
      simp only [h1, h2]

/-- C6 amended witness at the concrete input c6rows, exercising the latitude
disjunct. -/
theorem c6_witness :
    ((c6badRow ∈ c6rows) ∧
        (c6badRow.latitude = NumCell.bad ∨ c6badRow.longitude = NumCell.bad) ∧
        is_null_cell c6badRow.latitude = false ∧
        is_null_cell c6badRow.longitude = false) ∧
      scrub_data c6rows = none :=
  ⟨⟨by decide, Or.inl (by decide), by decide, by decide⟩,
    c6_bad_coordinate_raises c6rows c6badRow (by decide) (Or.inl (by decide)) (by decide)
      (by decide)⟩

theorem mutate_parse_timeObj {r r' : RawRow} (h : mutate_parse r = some r') :
    ∃ t, r'.crash_time = TimeCell.timeObj t := by
  unfold mutate_parse at h
  rcases hd : r.crash_date with _ | d <;>
    rcases ht : to_datetime_time r.crash_time with _ | t <;>
      simp_all
  exact ⟨t, by rw [← h]⟩

theorem mutate_convert_time {r r' : RawRow} (h : mutate_convert r = some r') :
    r'.crash_time = r.crash_time := by
  unfold mutate_convert at h
  rcases hla : astype_float r.latitude with _ | la <;>
    rcases hlo : astype_float r.longitude with _ | lo <;>
      simp_all
  rw [← h]

theorem scrub_mutate_timeObj {rows m : List RawRow} (hsm : scrub_mutate rows = some m) :
    ∀ r' ∈ m, ∃ t, r'.crash_time = TimeCell.timeObj t := by
  intro r' hr'
  unfold scrub_mutate at hsm
  cases h1 : mapO mutate_parse rows with
  | none => rw [h1] at hsm; cases hsm
  | some parsed =>
    rw [h1] at hsm
    simp only at hsm
    obtain ⟨q, hq, hconv⟩ := mapO_forall_mem hsm r' hr'
    obtain ⟨r0, _, hparse⟩ :=
      mapO_forall_mem h1 q (List.mem_of_mem_filter hq)
    obtain ⟨t, hqt⟩ := mutate_parse_timeObj hparse
    exact ⟨t, (mutate_convert_time hconv).trans hqt⟩

theorem parse_row_none_of_timeObj {r : RawRow} {t : TimeOfDay}
    (h : r.crash_time = TimeCell.timeObj t) : parse_row r = none := by
  unfold parse_row
  rw [h]
  rcases hd : r.crash_date with _ | d <;> simp [to_datetime_time]

/-- The raw input of the C8 scenario: one fully valid row. -/
def c8rows : List RawRow := [baseRaw]

/-- The caller-visible state of the frame after the first successful run of
scrub_data on c8rows: the crash_time column now holds a datetime.time
object. -/
def c8mut : List RawRow := [{ baseRaw with crash_time := .timeObj ⟨17, 30⟩ }]

/-- C8 counterexample: scrub_data mutates its argument in place, so the
first call succeeds but leaves the frame in a state (time objects in the
crash_time column) on which a second call raises instead of returning the
same RecordSet. -/
theorem c8_counterexample :
    scrub_data c8rows = some [baseRec] ∧ scrub_mutate c8rows = some c8mut ∧
      scrub_data c8mut = none :=
  ⟨by decide, by decide, by decide⟩

/-- C8 amended: clean is a deterministic function of the input value, but it
is not repeatable on the same frame object: after any successful run whose
caller-visible frame is nonempty, running clean again on that frame raises,
because every surviving row now carries a datetime.time object that
pd.to_datetime with format %H:%M cannot parse. -/
theorem c8_second_run_raises (rows m : List RawRow) (hm : scrub_mutate rows = some m)
    (hne : m ≠ []) : scrub_data m = none := by
  obtain ⟨r, rest, rfl⟩ := List.exists_cons_of_ne_nil hne
  obtain ⟨t, ht⟩ := scrub_mutate_timeObj hm r (List.mem_cons_self r rest)
  have hpr : parse_row r = none := parse_row_none_of_timeObj ht
  unfold scrub_data
  rw [mapO_eq_none_of_mem (List.mem_cons_self r rest) hpr]

/-- C8 amended witness at the concrete input c8rows. -/
theorem c8_witness :
    (scrub_mutate c8rows = some c8mut ∧ c8mut ≠ []) ∧ scrub_data c8mut = none :=
  ⟨⟨by decide, by decide⟩, c8_second_run_raises c8rows c8mut (by decide) (by decide)⟩

theorem scrub_data_shape {rows : List RawRow} {rs : List Record}
    (h : scrub_data rows = some rs) :
    ∃ recs : List Record, rs = recs.filter in_nyc_bounds := by
  unfold scrub_data at h
  cases h1 : mapO parse_row rows with
  | none => rw [h1] at h; exact Option.noConfusion h
  | some parsed =>
    rw [h1] at h
    simp only at h
    cases h2 : mapO build_record (parsed.filter keep_coords) with
    | none => rw [h2] at h; exact Option.noConfusion h
    | some recs =>
      rw [h2] at h
      simp only [Option.some.injEq] at h
      exact ⟨recs, h.symm⟩

/-- C1: every record of a RecordSet returned by scrub_data has non-null
latitude in [40.4, 41.0] and non-null longitude in [-74.3, -73.7]; every
point of the point-map view satisfies the same bounds, and the hour-filtered
view only selects records of the RecordSet (so its rows satisfy them too). -/
theorem c1_clean_bounds (rows : List RawRow) (rs : List Record)
    (h : scrub_data rows = some rs) :
    (∀ r ∈ rs, ∃ la lo, r.latitude = some la ∧ r.longitude = some lo ∧
        nyc_latitude_min ≤ la ∧ la ≤ nyc_latitude_max ∧
        nyc_longitude_min ≤ lo ∧ lo ≤ nyc_longitude_max) ∧
    (∀ (m : MetricKind) (t : ℕ), ∀ p ∈ map_of_the_incident rs m t,
      ∃ la lo, p = (some la, some lo) ∧
        nyc_latitude_min ≤ la ∧ la ≤ nyc_latitude_max ∧
        nyc_longitude_min ≤ lo ∧ lo ≤ nyc_longitude_max) ∧
    (∀ hr : ℕ, ∀ r ∈ map_of_the_incident_freq_hist rs hr, r ∈ rs) := by
  have hbounds : ∀ r ∈ rs, in_nyc_bounds r = true := by
    obtain ⟨recs, hrs⟩ := scrub_data_shape h
    intro r hr
    rw [hrs] at hr
    exact List.of_mem_filter hr
  have hbb : ∀ r ∈ rs, ∃ la lo, r.latitude = some la ∧ r.longitude = some lo ∧
      nyc_latitude_min ≤ la ∧ la ≤ nyc_latitude_max ∧
      nyc_longitude_min ≤ lo ∧ lo ≤ nyc_longitude_max := by
    intro r hr
    have hb := hbounds r hr
    unfold in_nyc_bounds at hb
    rcases hla : r.latitude with _ | la
    · rw [hla] at hb; simp [naGe] at hb
    · rcases hlo : r.longitude with _ | lo
      · rw [hla, hlo] at hb; simp [naGe, naLe] at hb
      · rw [hla, hlo] at hb
        simp only [naGe, naLe, Bool.and_eq_true, decide_eq_true_eq] at hb
        exact ⟨la, lo, rfl, rfl, hb.1.1.1, hb.1.1.2, hb.1.2, hb.2⟩
  refine ⟨hbb, ?_, ?_⟩
  · intro m t p hp
    unfold map_of_the_incident at hp
    have hp' := List.mem_of_mem_filter hp
    obtain ⟨r, hrf, rfl⟩ := List.mem_map.1 hp'
    have hr : r ∈ rs := List.mem_of_mem_filter hrf
    obtain ⟨la, lo, h1, h2, h3, h4, h5, h6⟩ := hbb r hr
    exact ⟨la, lo, by rw [h1, h2], h3, h4, h5, h6⟩
  · intro hr24 r hr
    exact List.mem_of_mem_filter hr

/-- C1 witness at the concrete input [baseRaw]. -/
theorem c1_witness :
    scrub_data [baseRaw] = some [baseRec] ∧
      ((∀ r ∈ [baseRec], ∃ la lo, r.latitude = some la ∧ r.longitude = some lo ∧
          nyc_latitude_min ≤ la ∧ la ≤ nyc_latitude_max ∧
          nyc_longitude_min ≤ lo ∧ lo ≤ nyc_longitude_max) ∧
        (∀ (m : MetricKind) (t : ℕ), ∀ p ∈ map_of_the_incident [baseRec] m t,
          ∃ la lo, p = (some la, some lo) ∧
            nyc_latitude_min ≤ la ∧ la ≤ nyc_latitude_max ∧
            nyc_longitude_min ≤ lo ∧ lo ≤ nyc_longitude_max) ∧
        (∀ hr : ℕ, ∀ r ∈ map_of_the_incident_freq_hist [baseRec] hr, r ∈ [baseRec])) :=
  ⟨by decide, c1_clean_bounds [baseRaw] [baseRec] (by decide)⟩

/-- C2: on a cleaned RecordSet (non-null coordinates), the point-map query
returns exactly the (latitude, longitude) projection, in order, of the
records whose selected casualty field is present and at least the threshold;
a missing field never passes, in particular at threshold 0, where a record
with a missing field contributes nothing to the output. -/
theorem c2_filter_by_metric (rs : List Record) (m : MetricKind) (t : ℕ)
    (hclean : ∀ r ∈ rs, r.latitude.isSome ∧ r.longitude.isSome) :
    map_of_the_incident rs m t =
      (rs.filter (fun r => naGe (metricField m r) (t : ℚ))).map
        (fun r => (r.latitude, r.longitude)) ∧
    (∀ r : Record, naGe (metricField m r) (t : ℚ) = true ↔
      ∃ v, metricField m r = some v ∧ (t : ℚ) ≤ v) ∧
    (∀ (r0 : Record) (l : List Record), metricField m r0 = none →
      map_of_the_incident (r0 :: l) m t = map_of_the_incident l m t) := by
  refine ⟨?_, ?_, ?_⟩
  · unfold map_of_the_incident
    apply List.filter_eq_self.mpr
    intro p hp
    obtain ⟨r, hr, rfl⟩ := List.mem_map.1 hp
    have h := hclean r (List.mem_of_mem_filter hr)
    simp [h.1, h.2]
  · intro r
    rcases hf : metricField m r with _ | v
    · simp [naGe]
    · simp [naGe]
  · intro r0 l hnone
    have hng : naGe (metricField m r0) (t : ℚ) = false := by rw [hnone]; rfl
    unfold map_of_the_incident
    rw [List.filter_cons_of_neg (by simp [hng])]

/-- C2 witness at the concrete RecordSet [baseRec], metric totalInjured,
threshold 1. -/
theorem c2_witness :
    (∀ r ∈ [baseRec], r.latitude.isSome ∧ r.longitude.isSome) ∧
      (map_of_the_incident [baseRec] .totalInjured 1 =
          (([baseRec].filter
              (fun r => naGe (metricField .totalInjured r) ((1 : ℕ) : ℚ))).map
            (fun r => (r.latitude, r.longitude))) ∧
        (∀ r : Record, naGe (metricField .totalInjured r) ((1 : ℕ) : ℚ) = true ↔
          ∃ v, metricField .totalInjured r = some v ∧ ((1 : ℕ) : ℚ) ≤ v) ∧
        (∀ (r0 : Record) (l : List Record), metricField .totalInjured r0 = none →
          map_of_the_incident (r0 :: l) .totalInjured 1 =
            map_of_the_incident l .totalInjured 1)) :=
  ⟨by decide, c2_filter_by_metric [baseRec] .totalInjured 1 (by decide)⟩

theorem mem_insertAsc {key : α → ℚ} {x a : α} {l : List α} :
    a ∈ insertAsc key x l ↔ a = x ∨ a ∈ l := by
  induction l with
  | nil => simp [insertAsc]
  | cons y ys ih =>
    unfold insertAsc
    by_cases h : key x ≤ key y
    · simp [h]
    · simp [h, ih]
      tauto

theorem pairwise_insertAsc {key : α → ℚ} {x : α} {l : List α}
    (hl : l.Pairwise (fun a b => key a ≤ key b)) :
    (insertAsc key x l).Pairwise (fun a b => key a ≤ key b) := by
  induction l with
  | nil => simp [insertAsc]
  | cons y ys ih =>
    rcases List.pairwise_cons.1 hl with ⟨hy, hys⟩
    unfold insertAsc
    by_cases h : key x ≤ key y
    · rw [if_pos h]
      refine List.pairwise_cons.2 ⟨?_, hl⟩
      intro b hb
      rcases List.mem_cons.1 hb with rfl | hbys
      · exact h
      · exact le_trans h (hy b hbys)
    · rw [if_neg h]
      refine List.pairwise_cons.2 ⟨?_, ih hys⟩
      intro b hb
      rcases mem_insertAsc.1 hb with rfl | hbys
      · exact le_of_not_le h
      · exact hy b hbys

theorem pairwise_sortAsc {key : α → ℚ} (l : List α) :
    (sortAsc key l).Pairwise (fun a b => key a ≤ key b) := by
  induction l with
  | nil => simp [sortAsc]
  | cons x xs ih => exact pairwise_insertAsc ih

theorem pairwise_take_filter {R : α → α → Prop} {l : List α} (h : l.Pairwise R)
    (p : α → Bool) (n : ℕ) : ((l.filter p).take n).Pairwise R :=
  (h.sublist (List.filter_sublist _)).sublist (List.take_sublist _ _)

/-- The four records of the C5 scenario, in arrival order: streets A, B, C, D
with pedestrian injury counts 3, 5, 5, 1. -/
def c5rs : List Record :=
  [{ baseRec with on_street_name := some "A", number_of_pedestrians_injured := some 3 },
   { baseRec with on_street_name := some "B", number_of_pedestrians_injured := some 5 },
   { baseRec with on_street_name := some "C", number_of_pedestrians_injured := some 5 },
   { baseRec with on_street_name := some "D", number_of_pedestrians_injured := some 1 }]

/-- C5 counterexample: on arrival order A3, B5, C5, D1 the street table does
NOT keep the tied streets B and C in arrival order; pandas sort_values with
ascending=False reverses a stable ascending argsort, so C comes out before
B. -/
theorem c5_counterexample :
    create_table_incident_by_street c5rs .pedestrians ≠
      [(some "B", some 5), (some "C", some 5), (some "A", some 3), (some "D", some 1)] := by
  decide

/-- C5 amended: the street table filters to records with count >= 1, drops
null street names, sorts descending by count and returns at most 5 entries;
rows with equal counts appear in REVERSE arrival order (a descending
sort_values is a reversed stable ascending argsort), so the example input
A3, B5, C5, D1 yields C5, B5, A3, D1. -/
theorem c5_top_streets (rs : List Record) (c : StreetMetric) :
    (create_table_incident_by_street rs c).length ≤ 5 ∧
    (create_table_incident_by_street rs c).Pairwise
      (fun a b => (b.2.getD 0 : ℚ) ≤ (a.2.getD 0 : ℚ)) ∧
    create_table_incident_by_street c5rs .pedestrians =
      [(some "C", some 5), (some "B", some 5), (some "A", some 3), (some "D", some 1)] := by
  refine ⟨?_, ?_, by decide⟩
  · simp only [create_table_incident_by_street]
    rw [List.length_take]
    exact Nat.min_le_left _ _
  · simp only [create_table_incident_by_street]
    refine pairwise_take_filter ?_ _ _
    rw [List.pairwise_reverse]
    exact pairwise_sortAsc _

/-- The example column of the C7 scenario: values 1, 2, 3, 4, 100. -/
def c7col : PCol := .num [some 1, some 2, some 3, some 4, some 100]

/-- A one-record RecordSet for inspecting the columns the outlier report
considers. -/
def c7rs : List Record := [baseRec]

/-- C7 counterexample: the fields considered by number_of_outliers are NOT
exactly the numeric fields; select_dtypes(exclude=object) also keeps the
datetime64 column date/time, which then receives an IQR outlier count. -/
theorem c7_counterexample :
    (number_of_outliers (recordFrame c7rs)).map Prod.fst ≠
      numeric_fields (recordFrame c7rs) := by
  decide

/-- C7 amended: the outlier report considers the non-object fields, namely
the ten numeric fields followed by the datetime64 field date/time; for each
it computes Q1 and Q3 as the 25th and 75th percentiles and counts values
strictly outside [Q1 - 1.5 IQR, Q3 + 1.5 IQR]; on the example column
[1, 2, 3, 4, 100] this gives Q1 = 2, Q3 = 4, bounds [-1, 7] and outlier
count 1. -/
theorem c7_outlier_report (rs : List Record) :
    (number_of_outliers (recordFrame rs)).map Prod.fst =
      numeric_fields (recordFrame rs) ++ ["date/time"] ∧
    quantile (mkRat 1 4) c7col = some 2 ∧
    quantile (mkRat 3 4) c7col = some 4 ∧
    outlier_count c7col = cell_outlier_count c7col (-1) 7 ∧
    outlier_count c7col = 1 := by
  exact ⟨rfl, by decide, by decide, by decide, by decide⟩

/-- C9: for every frame with at least one row, the null report carries, per
field, the exact count of missing cells, and renders the percentage of the
row count rounded to two decimal places as a string; a field with 3 missing
cells out of 12 rows is rendered as 25.0 percent. -/
theorem c9_null_report (f : Frame) (_hrows : 0 < df_shape0 f) :
    ((df_isnull f).map (fun e => (e.1, e.2.1)) = f.map (fun c => (c.1, null_count c.2))) ∧
    (∀ e ∈ df_isnull f,
      e.2.2 = py_float_str (round2 (qMul (divByNat (e.2.1 : ℚ) (df_shape0 f)) 100)) ++ "%") ∧
    (df_shape0 f = 12 → ∀ e ∈ df_isnull f, e.2.1 = 3 → e.2.2 = "25.0%") := by
  refine ⟨?_, ?_, ?_⟩
  · unfold df_isnull
    rw [List.map_map]
    rfl
  · intro e he
    unfold df_isnull at he
    obtain ⟨c, hc, rfl⟩ := List.mem_map.1 he
    rfl
  · intro h12 e he h3
    unfold df_isnull at he
    obtain ⟨c, hc, rfl⟩ := List.mem_map.1 he
    simp only at h3 ⊢
    rw [h3, h12]
    decide

/-- A one-column frame with 12 rows of which 3 are missing. -/
def c9frame : Frame :=
  [("street",
    PCol.obj
      [some "a", some "b", some "c", none, none, none, some "d", some "e", some "f",
        some "g", some "h", some "i"])]

/-- C9 witness at the concrete frame c9frame. -/
theorem c9_witness :
    0 < df_shape0 c9frame ∧
      (((df_isnull c9frame).map (fun e => (e.1, e.2.1)) =
          c9frame.map (fun c => (c.1, null_count c.2))) ∧
        (∀ e ∈ df_isnull c9frame,
          e.2.2 =
            py_float_str (round2 (qMul (divByNat (e.2.1 : ℚ) (df_shape0 c9frame)) 100)) ++ "%") ∧
        (df_shape0 c9frame = 12 → ∀ e ∈ df_isnull c9frame, e.2.1 = 3 → e.2.2 = "25.0%")) :=
  ⟨by decide, c9_null_report c9frame (by decide)⟩
